import Mathlib

set_option linter.unusedVariables false

/-!
# Verification of the gitnoob branch-synchronization core

Shallow embedding of the stash-coordination and branch-classification logic
of the gitnoob CLI (src/commands/checkout.ts, reset.ts [UpdateCommand],
clear-workflows.ts [MergeFromCommand], checkout.ts [UpdateAllCommand],
prune.ts, reset.ts [ResetCommand] and src/core/git.ts).

Each command's `execute` is modelled as a pure function of an *environment*
record that supplies, in program order, the results the git facade would
return to each call the command makes.  The run result records the process
outcome (`process.exit` code or the returned `GitResult`) together with
which guarded actions (stash creation, mutation, restore) were performed.
-/

/-- Result of one git invocation (src/core/types.ts `GitResult`).  The
optional `requiresManualResolution` field defaults to `false`. -/
structure GitResult where
  success : Bool
  stdout : String
  stderr : String
  exitCode : Int
  requiresManualResolution : Bool := false
deriving Repr, DecidableEq

/-- Working-tree status (src/core/types.ts `GitStatus`).  In the source,
`getStatus` always stores `hasChanges` as the disjunction of the three
flags, so it is modelled as a derived function rather than a field. -/
structure GitStatus where
  hasUncommittedChanges : Bool
  hasStagedChanges : Bool
  hasUntrackedFiles : Bool
deriving Repr, DecidableEq

/-- src/core/git.ts `getStatus`: `hasChanges` is the OR of the three flags. -/
def GitStatus.hasChanges (s : GitStatus) : Bool :=
  s.hasUncommittedChanges || s.hasStagedChanges || s.hasUntrackedFiles

/-- Outcome of one command run: either `process.exit(code)` was reached, or
the command returned a `GitResult` to the dispatcher. -/
inductive CmdOutcome where
  | exited (code : Nat)
  | returned (r : GitResult)
deriving Repr, DecidableEq

/-- Splitting a character list on newline characters, the char-list
analogue of JS `s.split('\n')` (empty input gives one empty line, exactly
as in JS).  Defined structurally so that proofs can evaluate it. -/
def splitOnNl : List Char → List (List Char)
  | [] => [[]]
  | c :: rest =>
    let r := splitOnNl rest
    if c = '\n' then [] :: r
    else
      match r with
      | [] => [[c]]
      | l :: ls => (c :: l) :: ls

/-- JS `s.split('\n')`. -/
def splitLines (s : String) : List String :=
  (splitOnNl s.data).map (fun cs => ⟨cs⟩)

/-- Substring test on character lists (`needle` occurs in `haystack`). -/
def listContainsSub (needle : List Char) : List Char → Bool
  | [] => needle.isPrefixOf []
  | c :: t => needle.isPrefixOf (c :: t) || listContainsSub needle t

/-- JS `haystack.includes(needle)`. -/
def strIncludes (haystack needle : String) : Bool :=
  listContainsSub needle.data haystack.data

/-- A line is blank exactly when JS `line.trim()` is falsy (empty). -/
def isBlankLine (l : String) : Bool :=
  l.data.all Char.isWhitespace

/-- `s.split('\n').filter(line => line.trim())`: the non-blank lines of a
command's output, as used to count stash entries in checkout.ts. -/
def nonEmptyLines (s : String) : List String :=
  (splitLines s).filter (fun l => !isBlankLine l)

def countNonEmptyLines (s : String) : Nat :=
  (nonEmptyLines s).length

/-- The regex `^(stash@\x7b\d+\x7d)` used by git.ts `findStash` and by
checkout.ts to extract the newest stash reference from a list line. -/
def stashRefMatch (line : String) : Option String :=
  if ("stash@\x7b".data).isPrefixOf line.data then
    let rest := line.data.drop 7
    let digits := rest.takeWhile Char.isDigit
    if 0 < digits.length ∧ (rest.drop digits.length).head? = some '\x7d' then
      some ⟨"stash@\x7b".data ++ digits ++ ['\x7d']⟩
    else none
  else none

/-- Decimal value of a digit string. -/
def digitsToNat (cs : List Char) : Nat :=
  cs.foldl (fun acc c => acc * 10 + (c.toNat - '0'.toNat)) 0

/-- JS `parseInt` on an already-trimmed string: an optional sign followed by
a decimal digit prefix; no digits parses to `NaN`, modelled as `none`. -/
def jsParseInt (s : String) : Option Int :=
  let cs := s.data
  let sign : Int := if cs.head? = some '-' then -1 else 1
  let rest := if cs.head? = some '-' ∨ cs.head? = some '+' then cs.drop 1 else cs
  let digits := rest.takeWhile Char.isDigit
  if digits.isEmpty then none
  else some (sign * (digitsToNat digits : Int))

/-- JS `s.trim()`: strip leading and trailing whitespace. -/
def jsTrim (s : String) : String :=
  ⟨((s.data.dropWhile Char.isWhitespace).reverse.dropWhile Char.isWhitespace).reverse⟩

/-- src/core/git.ts `getBehindCount`:
`result.success ? parseInt(result.stdout.trim()) || 0 : 0`.
(`|| 0` maps `NaN` — and `0` itself — to `0`.) -/
def getBehindCount (r : GitResult) : Int :=
  if r.success then
    match jsParseInt (jsTrim r.stdout) with
    | some n => n
    | none => 0
  else 0

/-- src/core/git.ts `createStash`: try `stash push --include-untracked`
first, and on failure retry a plain `stash push`. -/
def createStash (withUntracked plain : Bool) : Bool :=
  withUntracked || plain

/-- src/core/git.ts `findStash`: on a successful `stash list`, the *first*
line containing the message decides — its leading `stash@\x7bN\x7d` is
returned, or `null` if that line does not match the pattern. -/
def findStash (listResult : GitResult) (message : String) : Option String :=
  if listResult.success then
    match (splitLines listResult.stdout).find? (fun l => strIncludes l message) with
    | some line => stashRefMatch line
    | none => none
  else none

/-! ## CheckoutCommand (src/commands/checkout.ts) -/

/-- Environment for one `CheckoutCommand.execute` run: the git facade's
answers to each call, in program order. -/
structure CheckoutEnv where
  args : List String
  isGitRepo : Bool
  currentBranch : String
  selectedBranch : Option String
  status : GitStatus
  now : Nat
  stashListBefore : GitResult
  stashPushWithUntracked : Bool
  stashPushPlain : Bool
  stashListAfter : GitResult
  fetchSuccess : Bool
  checkoutSuccess : Bool
  hasRemoteBranch : Bool
  ffMergeSuccess : Bool
  statusBeforeRestore : GitStatus
  restoreResult : GitResult
deriving Repr

structure CheckoutRun where
  outcome : CmdOutcome
  stashCreateAttempted : Bool
  stashRef : Option String
  checkoutAttempted : Bool
  restoreAttempted : Bool
deriving Repr, DecidableEq

/-- checkout.ts `generateStashMessage` (`Date.now()` supplied as `now`). -/
def generateStashMessage (fromBranch toBranch : String) (now : Nat) : String :=
  "gitnoob-stash: " ++ fromBranch ++ " -> " ++ toBranch ++ " at " ++ toString now

/-- checkout.ts line 72: stash count before creating the new stash. -/
def checkoutStashCountBefore (e : CheckoutEnv) : Nat :=
  if e.stashListBefore.success then countNonEmptyLines e.stashListBefore.stdout else 0

/-- checkout.ts lines 80-88: after `createStash`, re-list the stashes; if
the listing succeeded and the non-blank line count exceeds the count taken
before, the first line's `stash@\x7bN\x7d` prefix becomes the stash ref. -/
def checkoutStashRef (e : CheckoutEnv) : Option String :=
  if e.stashListAfter.success then
    let lines := nonEmptyLines e.stashListAfter.stdout
    if lines.length > checkoutStashCountBefore e then
      match lines.head? with
      | some l => stashRefMatch l
      | none => none
    else none
  else none

/-- checkout.ts after the stash guard: fetch (warning only on failure),
checkout — on failure restore the stash (if any) and exit 1; on success an
optional fast-forward (warning only) and a final restore of the stash. -/
def checkoutAfterGuard (e : CheckoutEnv) (targetBranch : String)
    (attempted : Bool) (stashRef : Option String) : CheckoutRun :=
  if e.checkoutSuccess then
    { outcome := .returned
        ⟨true, "Successfully switched to branch '" ++ targetBranch ++ "'", "", 0, false⟩
      stashCreateAttempted := attempted
      stashRef := stashRef
      checkoutAttempted := true
      restoreAttempted := stashRef.isSome }
  else
    { outcome := .exited 1
      stashCreateAttempted := attempted
      stashRef := stashRef
      checkoutAttempted := true
      restoreAttempted := stashRef.isSome }

/-- src/commands/checkout.ts `CheckoutCommand.execute`. -/
def checkoutExecute (e : CheckoutEnv) : CheckoutRun :=
  match e.args with
  | [] => ⟨.exited 1, false, none, false, false⟩
  | target :: _ =>
    if !e.isGitRepo then ⟨.exited 1, false, none, false, false⟩
    else if e.currentBranch = "" then ⟨.exited 1, false, none, false, false⟩
    else if e.currentBranch = target then
      ⟨.returned ⟨true, "Already on branch '" ++ target ++ "'", "", 0, false⟩,
        false, none, false, false⟩
    else
      match e.selectedBranch with
      | none =>
        ⟨.returned ⟨false, "", "Operation cancelled", 1, false⟩, false, none, false, false⟩
      | some targetBranch =>
        if e.status.hasUncommittedChanges || e.status.hasStagedChanges then
          let stashMessage := generateStashMessage e.currentBranch targetBranch e.now
          if !(createStash e.stashPushWithUntracked e.stashPushPlain) then
            ⟨.exited 1, true, none, false, false⟩
          else
            match checkoutStashRef e with
            | none => ⟨.exited 1, true, none, false, false⟩
            | some r => checkoutAfterGuard e targetBranch true (some r)
        else
          checkoutAfterGuard e targetBranch false none

/-! ## UpdateCommand (src/commands/reset.ts) -/

/-- Environment for one `UpdateCommand.execute` run. -/
structure UpdateEnv where
  args : List String
  isGitRepo : Bool
  currentBranch : String
  hasRemote : Bool
  upstreamBranch : Option String
  status : GitStatus
  nowString : String
  stashResult : GitResult
  fetchResult : GitResult
  revListResult : GitResult
  updateResult : GitResult
  stashListEarly : GitResult
  restoreEarly : GitResult
  stashListLate : GitResult
  restoreLate : GitResult
deriving Repr

structure UpdateRun where
  outcome : CmdOutcome
  stashAttempted : Bool
  stashCreated : Bool
  updateAttempted : Bool
  restoreEntered : Bool
  restoreStashCalled : Bool
deriving Repr, DecidableEq

/-- The stash message `gitnoob-update-$\x7btimestamp\x7d`. -/
def updateStashMessage (e : UpdateEnv) : String :=
  "gitnoob-update-" ++ e.nowString

/-- The conflict heuristic of UpdateCommand: stderr contains `conflict`,
`CONFLICT` or `merge conflict`. -/
def updateIsConflict (r : GitResult) : Bool :=
  strIncludes r.stderr "conflict" || strIncludes r.stderr "CONFLICT" ||
    strIncludes r.stderr "merge conflict"

/-- The two-marker conflict heuristic used for stash restores, the
merge-from merge step and the update-all sweep: stderr contains
`conflict` or `CONFLICT`. -/
def isConflictText (r : GitResult) : Bool :=
  strIncludes r.stderr "conflict" || strIncludes r.stderr "CONFLICT"

/-- UpdateCommand after the stash guard (`stashed` records whether a stash
was created): fetch (exit 1 on failure), behind count (zero: restore the
stash if any and return "already up to date"), otherwise rebase/merge; a
failure is classified conflict (structured non-success return, stash left
alone) or other (exit 1, stash left alone); on success the stash (if any)
is restored, a restore conflict yielding a structured non-success return. -/
def updateAfterGuard (e : UpdateEnv) (stashed : Bool) : UpdateRun :=
  if !e.fetchResult.success then
    ⟨.exited 1, stashed, stashed, false, false, false⟩
  else if getBehindCount e.revListResult = 0 then
    let ref := if stashed then findStash e.stashListEarly (updateStashMessage e) else none
    { outcome := .returned ⟨true, "Branch already up to date", "", 0, false⟩
      stashAttempted := stashed
      stashCreated := stashed
      updateAttempted := false
      restoreEntered := stashed
      restoreStashCalled := ref.isSome }
  else if !e.updateResult.success then
    if updateIsConflict e.updateResult then
      { outcome := .returned ⟨false, "", "Merge conflicts detected", 1, true⟩
        stashAttempted := stashed
        stashCreated := stashed
        updateAttempted := true
        restoreEntered := false
        restoreStashCalled := false }
    else
      ⟨.exited 1, stashed, stashed, true, false, false⟩
  else
    if stashed then
      match findStash e.stashListLate (updateStashMessage e) with
      | some _ =>
        if !e.restoreLate.success && isConflictText e.restoreLate then
          { outcome := .returned ⟨false, "", "Stash restore conflicts detected", 1, true⟩
            stashAttempted := true
            stashCreated := true
            updateAttempted := true
            restoreEntered := true
            restoreStashCalled := true }
        else
          { outcome := .returned ⟨true, "Branch updated successfully", "", 0, false⟩
            stashAttempted := true
            stashCreated := true
            updateAttempted := true
            restoreEntered := true
            restoreStashCalled := true }
      | none =>
        { outcome := .returned ⟨true, "Branch updated successfully", "", 0, false⟩
          stashAttempted := true
          stashCreated := true
          updateAttempted := true
          restoreEntered := true
          restoreStashCalled := false }
    else
      { outcome := .returned ⟨true, "Branch updated successfully", "", 0, false⟩
        stashAttempted := false
        stashCreated := false
        updateAttempted := true
        restoreEntered := false
        restoreStashCalled := false }

/-- src/commands/reset.ts `UpdateCommand.execute`: preflight checks (repo,
current branch, remote, upstream — each fatal), then the stash guard
(`status.hasChanges`; a failed `stashChanges` is fatal), then
`updateAfterGuard`. -/
def updateExecute (e : UpdateEnv) : UpdateRun :=
  if !e.isGitRepo then ⟨.exited 1, false, false, false, false, false⟩
  else if e.currentBranch = "" then ⟨.exited 1, false, false, false, false, false⟩
  else if !e.hasRemote then ⟨.exited 1, false, false, false, false, false⟩
  else
    match e.upstreamBranch with
    | none => ⟨.exited 1, false, false, false, false, false⟩
    | some _upstream =>
      if e.status.hasChanges then
        if !e.stashResult.success then ⟨.exited 1, true, false, false, false, false⟩
        else updateAfterGuard e true
      else updateAfterGuard e false

/-! ## MergeFromCommand (src/commands/clear-workflows.ts) -/

/-- Environment for one `MergeFromCommand.execute` run.  The four
`stashList…`/`restore…` pairs correspond to the four distinct
`findStash`/`restoreStash` call sites (step-3 failure, source-checkout
failure, source-update failure, and the final step-7 restore). -/
structure MergeFromEnv where
  args : List String
  isGitRepo : Bool
  currentBranch : String
  selectedBranch : Option String
  status : GitStatus
  nowString : String
  stashResult : GitResult
  fetchResult : GitResult
  currentUpstream : Option String
  currentRevList : GitResult
  currentUpdateResult : GitResult
  stashListA : GitResult
  restoreA : GitResult
  checkoutSourceSuccess : Bool
  stashListB : GitResult
  restoreB : GitResult
  sourceUpstream : Option String
  sourceRevList : GitResult
  sourceUpdateResult : GitResult
  checkoutBackOnFail : Bool
  stashListC : GitResult
  restoreC : GitResult
  checkoutBackSuccess : Bool
  mergeResult : GitResult
  stashListD : GitResult
  restoreD : GitResult
deriving Repr

structure MergeFromRun where
  outcome : CmdOutcome
  stashAttempted : Bool
  stashCreated : Bool
  mergeAttempted : Bool
  restoreEntered : Bool
deriving Repr, DecidableEq

/-- The stash message `gitnoob-merge-from-$\x7btimestamp\x7d`. -/
def mergeFromStashMessage (e : MergeFromEnv) : String :=
  "gitnoob-merge-from-" ++ e.nowString

/-- Step 3 of merge-from: when the current branch has an upstream and is
behind it, it is rebased onto the upstream; this is the failure test. -/
def mergeFromStep3Fail (e : MergeFromEnv) : Bool :=
  match e.currentUpstream with
  | some _ => decide (getBehindCount e.currentRevList > 0) && !e.currentUpdateResult.success
  | none => false

/-- Step 4 of merge-from: same test for the source branch's upstream. -/
def mergeFromStep4Fail (e : MergeFromEnv) : Bool :=
  match e.sourceUpstream with
  | some _ => decide (getBehindCount e.sourceRevList > 0) && !e.sourceUpdateResult.success
  | none => false

/-- MergeFromCommand after the stash guard: fetch (warning only), update
the current branch from its upstream (on failure: restore the stash, exit
1), checkout the source branch (on failure: restore, exit 1), update the
source branch (on failure: checkout back, restore, exit 1), checkout back
(on failure: exit 1 without restore), then the merge/rebase — whose failure
is classified conflict (structured non-success return, stash not restored)
or other (exit 1); on success the stash (if any) is restored, a restore
conflict yielding a structured non-success return. -/
def mergeFromAfterGuard (e : MergeFromEnv) (sourceBranch : String)
    (useRebase : Bool) (stashed : Bool) : MergeFromRun :=
  if mergeFromStep3Fail e then
    { outcome := .exited 1, stashAttempted := stashed, stashCreated := stashed
      mergeAttempted := false, restoreEntered := stashed }
  else if !e.checkoutSourceSuccess then
    { outcome := .exited 1, stashAttempted := stashed, stashCreated := stashed
      mergeAttempted := false, restoreEntered := stashed }
  else if mergeFromStep4Fail e then
    { outcome := .exited 1, stashAttempted := stashed, stashCreated := stashed
      mergeAttempted := false, restoreEntered := stashed }
  else if !e.checkoutBackSuccess then
    { outcome := .exited 1, stashAttempted := stashed, stashCreated := stashed
      mergeAttempted := false, restoreEntered := false }
  else if !e.mergeResult.success then
    if isConflictText e.mergeResult then
      { outcome := .returned ⟨false, "", "Merge conflicts detected", 1, true⟩
        stashAttempted := stashed, stashCreated := stashed
        mergeAttempted := true, restoreEntered := false }
    else
      { outcome := .exited 1, stashAttempted := stashed, stashCreated := stashed
        mergeAttempted := true, restoreEntered := false }
  else
    let successResult : GitResult :=
      ⟨true, "Successfully " ++ (if useRebase then "rebased" else "merged") ++
        " from " ++ sourceBranch, "", 0, false⟩
    if stashed then
      match findStash e.stashListD (mergeFromStashMessage e) with
      | some _ =>
        if !e.restoreD.success && isConflictText e.restoreD then
          { outcome := .returned ⟨false, "", "Stash restore conflicts detected", 1, true⟩
            stashAttempted := true, stashCreated := true
            mergeAttempted := true, restoreEntered := true }
        else
          { outcome := .returned successResult
            stashAttempted := true, stashCreated := true
            mergeAttempted := true, restoreEntered := true }
      | none =>
        { outcome := .returned successResult
          stashAttempted := true, stashCreated := true
          mergeAttempted := true, restoreEntered := true }
    else
      { outcome := .returned successResult
        stashAttempted := false, stashCreated := false
        mergeAttempted := true, restoreEntered := false }

/-- src/commands/clear-workflows.ts `MergeFromCommand.execute`: preflight
(args, repo, current branch, source ≠ current — each fatal), branch
selection (cancellation returns a non-success result), then the stash
guard (`status.hasChanges`) and `mergeFromAfterGuard`. -/
def mergeFromExecute (e : MergeFromEnv) : MergeFromRun :=
  match e.args with
  | [] => ⟨.exited 1, false, false, false, false⟩
  | source :: _ =>
    let useRebase := e.args.contains "--rebase"
    if !e.isGitRepo then ⟨.exited 1, false, false, false, false⟩
    else if e.currentBranch = "" then ⟨.exited 1, false, false, false, false⟩
    else if e.currentBranch = source then ⟨.exited 1, false, false, false, false⟩
    else
      match e.selectedBranch with
      | none =>
        ⟨.returned ⟨false, "", "Operation cancelled", 1, false⟩, false, false, false, false⟩
      | some sourceBranch =>
        if e.status.hasChanges then
          if !e.stashResult.success then ⟨.exited 1, true, false, false, false⟩
          else mergeFromAfterGuard e sourceBranch useRebase true
        else mergeFromAfterGuard e sourceBranch useRebase false

/-! ## UpdateAllCommand (src/commands/checkout.ts) -/

/-- Environment for one `UpdateAllCommand.execute` run; the per-branch loop
results are supplied as functions of the branch name. -/
structure UpdateAllEnv where
  args : List String
  isGitRepo : Bool
  originalBranch : String
  status : GitStatus
  nowString : String
  stashResult : GitResult
  fetchAllResult : GitResult
  branches : List String
  upstreamOf : String → Option String
  revListOf : String → GitResult
  checkoutOf : String → Bool
  updateResultOf : String → GitResult
  checkoutBackSuccess : Bool
  stashListAtRestore : GitResult
  restoreResult : GitResult

structure UpdateAllResults where
  updated : List String
  upToDate : List String
  failed : List String
  skipped : List String
deriving Repr, DecidableEq

structure UpdateAllRun where
  outcome : CmdOutcome
  stashAttempted : Bool
  loopReached : Bool
  restoreEntered : Bool
  results : UpdateAllResults
deriving Repr, DecidableEq

/-- The per-branch sweep of UpdateAllCommand: skip branches without an
upstream, skip up-to-date branches, otherwise checkout and rebase/merge;
a conflicting update is aborted and recorded as `branch (conflicts)`. -/
def updateAllLoop (e : UpdateAllEnv) : List String → UpdateAllResults → UpdateAllResults
  | [], acc => acc
  | b :: rest, acc =>
    match e.upstreamOf b with
    | none => updateAllLoop e rest { acc with skipped := acc.skipped ++ [b] }
    | some _upstream =>
      if getBehindCount (e.revListOf b) = 0 then
        updateAllLoop e rest { acc with upToDate := acc.upToDate ++ [b] }
      else if !e.checkoutOf b then
        updateAllLoop e rest { acc with failed := acc.failed ++ [b] }
      else
        let r := e.updateResultOf b
        if !r.success then
          if isConflictText r then
            updateAllLoop e rest { acc with failed := acc.failed ++ [b ++ " (conflicts)"] }
          else
            updateAllLoop e rest { acc with failed := acc.failed ++ [b] }
        else
          updateAllLoop e rest { acc with updated := acc.updated ++ [b] }

/-- src/commands/checkout.ts `UpdateAllCommand.execute`: preflight (repo,
original branch), the stash guard (`status.hasChanges`; a failed stash is
fatal), `fetch --all` (fatal on failure), a fatal check for an empty branch
list, the per-branch sweep, checkout back to the original branch (warning
only), restore of the stash (if any), and an aggregate result that is
non-success exactly when some branch failed. -/
def updateAllExecute (e : UpdateAllEnv) : UpdateAllRun :=
  if !e.isGitRepo then ⟨.exited 1, false, false, false, ⟨[], [], [], []⟩⟩
  else if e.originalBranch = "" then ⟨.exited 1, false, false, false, ⟨[], [], [], []⟩⟩
  else if e.status.hasChanges && !e.stashResult.success then
    ⟨.exited 1, true, false, false, ⟨[], [], [], []⟩⟩
  else
    let stashed := e.status.hasChanges
    if !e.fetchAllResult.success then ⟨.exited 1, stashed, false, false, ⟨[], [], [], []⟩⟩
    else if e.branches.isEmpty then ⟨.exited 1, stashed, false, false, ⟨[], [], [], []⟩⟩
    else
      let results := updateAllLoop e e.branches ⟨[], [], [], []⟩
      let hasFailures := !results.failed.isEmpty
      { outcome := .returned
          ⟨!hasFailures,
            "Updated " ++ toString results.updated.length ++ " branches",
            if hasFailures then
              "Failed to update " ++ toString results.failed.length ++ " branches"
            else "",
            if hasFailures then 1 else 0, false⟩
        stashAttempted := stashed
        loopReached := true
        restoreEntered := stashed
        results := results }

/-! ## PruneCommand (src/commands/prune.ts) -/

/-- Environment for one `PruneCommand.execute` run.  `localBranches` pairs
each local branch name with its configured upstream's remote branch name
(git.ts `getLocalBranchesWithUpstream`); `goneUpstreamLocals` is the list
of local branches whose upstream tracking reports `[gone]`
(`getBranchesWithGoneUpstream`); `branchesWithoutUpstream` is the list of
local branches with no upstream configured
(`getLocalBranchesWithoutUpstream`).  `isRemoteAvailable` is queried twice
by the source (preflight and inside `analyzeBranches`), hence two fields. -/
structure PruneEnv where
  args : List String
  isGitRepo : Bool
  remoteAvailablePre : Bool
  fetchResult : GitResult
  localBranches : List (String × String)
  remoteBranches : List String
  liveBranches : List String
  branchesWithoutUpstream : List String
  goneUpstreamLocals : List String
  remoteAvailableInAnalysis : Bool
  currentBranchShown : String
  confirm : Option Bool
  deleteSuccessOf : String → Bool

/-- The classification produced by `PruneCommand.analyzeBranches`. -/
structure PruneAnalysis where
  staleBranches : List String
  orphanedBranches : List String
  goneBranches : List String
  outdatedRemotes : List String
  noConnection : Bool
deriving Repr, DecidableEq

/-- prune.ts line 198: the protected trunk names. -/
def mainBranches : List String := ["main", "master", "develop", "development"]

/-- prune.ts lines 190-194: the stale computation against a given
authoritative remote-branch set — local branches with an upstream whose
remote name is absent from that set, excluding gone branches. -/
def staleAgainst (e : PruneEnv) (active : List String) : List String :=
  ((e.localBranches.filter
      (fun p => !(e.goneUpstreamLocals.contains p.1) && !(active.contains p.2))).map
    Prod.fst)

/-- src/commands/prune.ts `PruneCommand.analyzeBranches`. -/
def analyzeBranches (e : PruneEnv) : PruneAnalysis :=
  let noConnection := e.liveBranches.isEmpty && e.remoteAvailableInAnalysis
  let liveBranches := if noConnection then e.remoteBranches else e.liveBranches
  let outdatedRemotes :=
    if !noConnection then
      e.remoteBranches.filter (fun b => !(liveBranches.contains b) && b != "HEAD")
    else []
  let goneBranches := e.goneUpstreamLocals
  let activeBranches := if noConnection then e.remoteBranches else liveBranches
  let staleBranches := staleAgainst e activeBranches
  let orphanedBranches := e.branchesWithoutUpstream.filter
    (fun b => b != e.currentBranchShown && !(mainBranches.contains b))
  ⟨staleBranches, orphanedBranches, goneBranches, outdatedRemotes, noConnection⟩

/-- prune.ts lines 70-74: the branches selected for deletion. -/
def branchesToDelete (a : PruneAnalysis) (includeOrphaned : Bool) : List String :=
  a.staleBranches ++ a.goneBranches ++ (if includeOrphaned then a.orphanedBranches else [])

structure PruneRun where
  outcome : CmdOutcome
  toDelete : List String
  deletionRan : Bool

/-- src/commands/prune.ts `deleteBranches`. -/
def pruneDeleteBranches (e : PruneEnv) (branches : List String) : GitResult :=
  let failed := branches.filter (fun b => !(e.deleteSuccessOf b))
  let deletedCount := branches.length - failed.length
  if failed.isEmpty then
    ⟨true, "Successfully deleted " ++ toString deletedCount ++ " branches", "", 0, false⟩
  else
    ⟨false,
      "Deleted " ++ toString deletedCount ++ " of " ++ toString branches.length ++ " branches",
      "Failed to delete " ++ toString failed.length ++ " branches", 1, false⟩

/-- src/commands/prune.ts `PruneCommand.execute`: preflight (repo, remote —
each fatal), fetch (fatal on failure), `analyzeBranches`, the deletion set,
early successful returns when nothing was found or nothing is safe to
delete, the confirmation prompt (cancel and decline both return non-success
with exit code 1), then `deleteBranches`. -/
def pruneExecute (e : PruneEnv) : PruneRun :=
  let includeOrphaned := e.args.contains "--include-orphaned"
  if !e.isGitRepo then ⟨.exited 1, [], false⟩
  else if !e.remoteAvailablePre then ⟨.exited 1, [], false⟩
  else if !e.fetchResult.success then ⟨.exited 1, [], false⟩
  else
    let analysis := analyzeBranches e
    let allBranchesToDelete := branchesToDelete analysis includeOrphaned
    let hasAnyBranches := !analysis.staleBranches.isEmpty ||
      !analysis.goneBranches.isEmpty || !analysis.orphanedBranches.isEmpty
    if !hasAnyBranches then
      ⟨.returned ⟨true, "No stale branches found", "", 0, false⟩, allBranchesToDelete, false⟩
    else if allBranchesToDelete.isEmpty then
      ⟨.returned ⟨true, "No safe branches to delete", "", 0, false⟩, allBranchesToDelete, false⟩
    else
      match e.confirm with
      | none =>
        ⟨.returned ⟨false, "", "Operation cancelled", 1, false⟩, allBranchesToDelete, false⟩
      | some false =>
        ⟨.returned ⟨false, "", "Pruning cancelled", 1, false⟩, allBranchesToDelete, false⟩
      | some true =>
        ⟨.returned (pruneDeleteBranches e allBranchesToDelete), allBranchesToDelete, true⟩

/-! ## ResetCommand (src/commands/reset.ts) -/

/-- reset.ts line 30: the protected branch names (same list as prune's
`mainBranches`, declared separately in the source). -/
def protectedBranches : List String := ["main", "master", "develop", "development"]

/-- Environment for one `ResetCommand.execute` run.  The in-progress
rebase/merge aborts, the optional stash clearing and the upstream reset
only log warnings in the source; the control flow depends only on the
fields below. -/
structure ResetEnv where
  args : List String
  isGitRepo : Bool
  currentBranch : String
  confirm1 : Option Bool
  confirm2 : Option Bool
  resetHardResult : GitResult
  cleanResult : GitResult
  upstreamBranch : Option String
  upstreamResetResult : GitResult
  finalStatus : GitStatus

/-- The mutating tail of `ResetCommand.execute`: `reset --hard HEAD` and
`clean -fd` are each fatal on failure; the optional reset to the upstream
only warns; the command then returns success. -/
def resetMutate (e : ResetEnv) : CmdOutcome :=
  if !e.resetHardResult.success then .exited 1
  else if !e.cleanResult.success then .exited 1
  else .returned ⟨true, "All changes reset successfully", "", 0, false⟩

/-- src/commands/reset.ts `ResetCommand.execute`: preflight (repo, branch),
the protected-branch check (fatal without `--force`), a confirmation whose
cancellation or decline returns *success* with exit code 0 ("Reset
cancelled"), a second confirmation for protected branches with the same
decline behaviour, then `resetMutate`. -/
def resetExecute (e : ResetEnv) : CmdOutcome :=
  let force := e.args.contains "--force"
  if !e.isGitRepo then .exited 1
  else if e.currentBranch = "" then .exited 1
  else if protectedBranches.contains e.currentBranch && !force then .exited 1
  else
    match e.confirm1 with
    | none => .returned ⟨true, "Reset cancelled", "", 0, false⟩
    | some false => .returned ⟨true, "Reset cancelled", "", 0, false⟩
    | some true =>
      if protectedBranches.contains e.currentBranch then
        match e.confirm2 with
        | none => .returned ⟨true, "Reset cancelled", "", 0, false⟩
        | some false => .returned ⟨true, "Reset cancelled", "", 0, false⟩
        | some true => resetMutate e
      else resetMutate e

/-! ## Helper lemmas -/

theorem updateAfterGuard_stashAttempted (e : UpdateEnv) (s : Bool) :
    (updateAfterGuard e s).stashAttempted = s := by
  cases s <;> unfold updateAfterGuard <;> (repeat' split) <;> first | rfl | simp_all

theorem updateAfterGuard_stashCreated (e : UpdateEnv) (s : Bool) :
    (updateAfterGuard e s).stashCreated = s := by
  cases s <;> unfold updateAfterGuard <;> (repeat' split) <;> first | rfl | simp_all

theorem updateAfterGuard_restore_of_not_stashed (e : UpdateEnv) :
    (updateAfterGuard e false).restoreEntered = false := by
  unfold updateAfterGuard
  repeat' split
  all_goals first | rfl | simp_all

/-- Under the preflight hypotheses, `UpdateCommand.execute` reduces to the
post-guard phase (with a stash exactly when the status has changes). -/
theorem updateExecute_eq_afterGuard (e : UpdateEnv)
    (h1 : e.isGitRepo = true) (h2 : e.currentBranch ≠ "") (h3 : e.hasRemote = true)
    (u : String) (h4 : e.upstreamBranch = some u)
    (h5 : e.status.hasChanges = true → e.stashResult.success = true) :
    updateExecute e = updateAfterGuard e e.status.hasChanges := by
  unfold updateExecute
  rw [h4]
  cases hc : e.status.hasChanges with
  | false => simp [h1, h2, h3, hc]
  | true => simp [h1, h2, h3, hc, h5 hc]

theorem checkoutAfterGuard_fields (e : CheckoutEnv) (t : String) (a : Bool)
    (r : Option String) :
    (checkoutAfterGuard e t a r).stashCreateAttempted = a ∧
    (checkoutAfterGuard e t a r).checkoutAttempted = true ∧
    (checkoutAfterGuard e t a r).restoreAttempted = r.isSome := by
  unfold checkoutAfterGuard
  split <;> exact ⟨rfl, rfl, rfl⟩

theorem checkoutAfterGuard_outcome_of_failed (e : CheckoutEnv) (t : String) (a : Bool)
    (r : Option String) (h : e.checkoutSuccess = false) :
    (checkoutAfterGuard e t a r).outcome = .exited 1 := by
  unfold checkoutAfterGuard
  simp [h]

/-- Under the preflight hypotheses, `CheckoutCommand.execute` reduces to the
guard-and-mutate phase. -/
theorem checkoutExecute_reduce (e : CheckoutEnv) (target : String) (rest : List String)
    (sel : String) (hargs : e.args = target :: rest)
    (h1 : e.isGitRepo = true) (h2 : e.currentBranch ≠ "") (h3 : e.currentBranch ≠ target)
    (h4 : e.selectedBranch = some sel) :
    checkoutExecute e =
      (if e.status.hasUncommittedChanges || e.status.hasStagedChanges then
        if !(createStash e.stashPushWithUntracked e.stashPushPlain) then
          ⟨.exited 1, true, none, false, false⟩
        else
          match checkoutStashRef e with
          | none => ⟨.exited 1, true, none, false, false⟩
          | some r => checkoutAfterGuard e sel true (some r)
      else checkoutAfterGuard e sel false none) := by
  unfold checkoutExecute
  rw [hargs, h4]
  simp [h1, h2, h3]

theorem mergeFromAfterGuard_stashAttempted (e : MergeFromEnv) (sb : String)
    (ur : Bool) (s : Bool) :
    (mergeFromAfterGuard e sb ur s).stashAttempted = s := by
  cases s <;> unfold mergeFromAfterGuard <;> (repeat' split) <;> first | rfl | simp_all

theorem mergeFromAfterGuard_stashCreated (e : MergeFromEnv) (sb : String)
    (ur : Bool) (s : Bool) :
    (mergeFromAfterGuard e sb ur s).stashCreated = s := by
  cases s <;> unfold mergeFromAfterGuard <;> (repeat' split) <;> first | rfl | simp_all

theorem mergeFromAfterGuard_restore_of_not_stashed (e : MergeFromEnv) (sb : String)
    (ur : Bool) :
    (mergeFromAfterGuard e sb ur false).restoreEntered = false := by
  unfold mergeFromAfterGuard
  repeat' split
  all_goals first | rfl | simp_all

/-- Under the preflight hypotheses, `MergeFromCommand.execute` reduces to the
post-guard phase. -/
theorem mergeFromExecute_eq_afterGuard (e : MergeFromEnv) (source : String)
    (rest : List String) (sel : String) (hargs : e.args = source :: rest)
    (h1 : e.isGitRepo = true) (h2 : e.currentBranch ≠ "") (h3 : e.currentBranch ≠ source)
    (h4 : e.selectedBranch = some sel)
    (h5 : e.status.hasChanges = true → e.stashResult.success = true) :
    mergeFromExecute e =
      mergeFromAfterGuard e sel (e.args.contains "--rebase") e.status.hasChanges := by
  unfold mergeFromExecute
  rw [hargs, h4]
  cases hc : e.status.hasChanges with
  | false => simp [h1, h2, h3, hc, ← hargs]
  | true => simp [h1, h2, h3, hc, h5 hc, ← hargs]

/-! ## Claim C1 -/

/-- A checkout environment whose working tree has *only untracked* files:
`hasChanges` is true but checkout's guard condition is false. -/
def envC1cx : CheckoutEnv :=
  { args := ["dev"]
    isGitRepo := true
    currentBranch := "main"
    selectedBranch := some "dev"
    status := ⟨false, false, true⟩
    now := 0
    stashListBefore := ⟨true, "", "", 0, false⟩
    stashPushWithUntracked := true
    stashPushPlain := true
    stashListAfter := ⟨true, "", "", 0, false⟩
    fetchSuccess := true
    checkoutSuccess := true
    hasRemoteBranch := false
    ffMergeSuccess := true
    statusBeforeRestore := ⟨false, false, false⟩
    restoreResult := ⟨true, "", "", 0, false⟩ }

/-- C1 counterexample: in the checkout workflow a working tree whose only
changes are untracked files has `workingTreeStatus().hasChanges = true`,
yet no save-point is created (checkout guards on
`hasUncommittedChanges || hasStagedChanges` only), refuting the claimed
"save-point iff hasChanges" equivalence for the checkout workflow. -/
theorem claim_C1_counterexample :
    envC1cx.status.hasChanges = true ∧
    (checkoutExecute envC1cx).stashCreateAttempted = false ∧
    (checkoutExecute envC1cx).restoreAttempted = false := by decide

/-- C1 (amended): in the single-branch update, fleet-wide update and
merge-from workflows a save-point is created exactly when the working-tree
status queried before the mutation has `hasChanges = true`; in the
checkout-with-stash workflow it is created exactly when
`hasUncommittedChanges || hasStagedChanges` is true (a tree with only
untracked files is not stashed).  In every workflow, when no save-point is
created no restore is attempted. -/
theorem claim_C1_amended :
    (∀ (e : CheckoutEnv) (target : String) (rest : List String) (sel : String),
      e.args = target :: rest → e.isGitRepo = true → e.currentBranch ≠ "" →
      e.currentBranch ≠ target → e.selectedBranch = some sel →
      ((checkoutExecute e).stashCreateAttempted =
          (e.status.hasUncommittedChanges || e.status.hasStagedChanges) ∧
        ((e.status.hasUncommittedChanges || e.status.hasStagedChanges) = false →
          (checkoutExecute e).restoreAttempted = false))) ∧
    (∀ (e : UpdateEnv) (u : String),
      e.isGitRepo = true → e.currentBranch ≠ "" → e.hasRemote = true →
      e.upstreamBranch = some u →
      ((updateExecute e).stashAttempted = e.status.hasChanges ∧
        (e.status.hasChanges = false → (updateExecute e).restoreEntered = false))) ∧
    (∀ e : UpdateAllEnv,
      e.isGitRepo = true → e.originalBranch ≠ "" →
      ((updateAllExecute e).stashAttempted = e.status.hasChanges ∧
        (e.status.hasChanges = false → (updateAllExecute e).restoreEntered = false))) ∧
    (∀ (e : MergeFromEnv) (source : String) (rest : List String) (sel : String),
      e.args = source :: rest → e.isGitRepo = true → e.currentBranch ≠ "" →
      e.currentBranch ≠ source → e.selectedBranch = some sel →
      ((mergeFromExecute e).stashAttempted = e.status.hasChanges ∧
        (e.status.hasChanges = false → (mergeFromExecute e).restoreEntered = false))) := by
  refine ⟨?_, ?_, ?_, ?_⟩
  · intro e target rest sel hargs h1 h2 h3 h4
    rw [checkoutExecute_reduce e target rest sel hargs h1 h2 h3 h4]
    cases hg : (e.status.hasUncommittedChanges || e.status.hasStagedChanges)
    · have hf := checkoutAfterGuard_fields e sel false none
      simp [hg, hf.1, hf.2.2]
    · cases hcs : createStash e.stashPushWithUntracked e.stashPushPlain
      · simp [hg, hcs]
      · cases href : checkoutStashRef e
        · simp [hg, hcs, href]
        · have hf := checkoutAfterGuard_fields e sel true (checkoutStashRef e)
          simp_all [hf.1]
  · intro e u h1 h2 h3 h4
    constructor
    · unfold updateExecute
      rw [h4]
      cases hc : e.status.hasChanges
      · simp [h1, h2, h3, hc, updateAfterGuard_stashAttempted]
      · cases hs : e.stashResult.success
        · simp [h1, h2, h3, hc, hs]
        · simp [h1, h2, h3, hc, hs, updateAfterGuard_stashAttempted]
    · intro hc
      rw [updateExecute_eq_afterGuard e h1 h2 h3 u h4 (by simp [hc]), hc,
        updateAfterGuard_restore_of_not_stashed]
  · intro e h1 h2
    refine ⟨?_, ?_⟩
    · unfold updateAllExecute
      repeat' split
      all_goals simp_all
    · intro hc
      unfold updateAllExecute
      repeat' split
      all_goals simp_all
  · intro e source rest sel hargs h1 h2 h3 h4
    constructor
    · unfold mergeFromExecute
      rw [hargs, h4]
      cases hc : e.status.hasChanges
      · simp [h1, h2, h3, hc, mergeFromAfterGuard_stashAttempted]
      · cases hs : e.stashResult.success
        · simp [h1, h2, h3, hc, hs]
        · simp [h1, h2, h3, hc, hs, mergeFromAfterGuard_stashAttempted]
    · intro hc
      rw [mergeFromExecute_eq_afterGuard e source rest sel hargs h1 h2 h3 h4 (by simp [hc]),
        hc, mergeFromAfterGuard_restore_of_not_stashed]

/-- A checkout environment with staged changes (guard active). -/
def envC1a : CheckoutEnv :=
  { envC1cx with
    status := ⟨true, false, false⟩
    stashListAfter := ⟨true, "stash@\x7b0\x7d: On main: gitnoob-stash", "", 0, false⟩ }

/-- An update environment with a clean working tree. -/
def envC1b : UpdateEnv :=
  { args := []
    isGitRepo := true
    currentBranch := "feat"
    hasRemote := true
    upstreamBranch := some "origin/feat"
    status := ⟨false, false, false⟩
    nowString := "T"
    stashResult := ⟨true, "", "", 0, false⟩
    fetchResult := ⟨true, "", "", 0, false⟩
    revListResult := ⟨true, "0", "", 0, false⟩
    updateResult := ⟨true, "", "", 0, false⟩
    stashListEarly := ⟨true, "", "", 0, false⟩
    restoreEarly := ⟨true, "", "", 0, false⟩
    stashListLate := ⟨true, "", "", 0, false⟩
    restoreLate := ⟨true, "", "", 0, false⟩ }

/-- An update-all environment with a clean working tree. -/
def envC1c : UpdateAllEnv :=
  { args := []
    isGitRepo := true
    originalBranch := "main"
    status := ⟨false, false, false⟩
    nowString := "T"
    stashResult := ⟨true, "", "", 0, false⟩
    fetchAllResult := ⟨true, "", "", 0, false⟩
    branches := ["main"]
    upstreamOf := fun _ => none
    revListOf := fun _ => ⟨true, "0", "", 0, false⟩
    checkoutOf := fun _ => true
    updateResultOf := fun _ => ⟨true, "", "", 0, false⟩
    checkoutBackSuccess := true
    stashListAtRestore := ⟨true, "", "", 0, false⟩
    restoreResult := ⟨true, "", "", 0, false⟩ }

/-- A merge-from environment with a clean working tree. -/
def envC1d : MergeFromEnv :=
  { args := ["src"]
    isGitRepo := true
    currentBranch := "main"
    selectedBranch := some "src"
    status := ⟨false, false, false⟩
    nowString := "T"
    stashResult := ⟨true, "", "", 0, false⟩
    fetchResult := ⟨true, "", "", 0, false⟩
    currentUpstream := none
    currentRevList := ⟨true, "0", "", 0, false⟩
    currentUpdateResult := ⟨true, "", "", 0, false⟩
    stashListA := ⟨true, "", "", 0, false⟩
    restoreA := ⟨true, "", "", 0, false⟩
    checkoutSourceSuccess := true
    stashListB := ⟨true, "", "", 0, false⟩
    restoreB := ⟨true, "", "", 0, false⟩
    sourceUpstream := none
    sourceRevList := ⟨true, "0", "", 0, false⟩
    sourceUpdateResult := ⟨true, "", "", 0, false⟩
    checkoutBackOnFail := true
    stashListC := ⟨true, "", "", 0, false⟩
    restoreC := ⟨true, "", "", 0, false⟩
    checkoutBackSuccess := true
    mergeResult := ⟨true, "", "", 0, false⟩
    stashListD := ⟨true, "", "", 0, false⟩
    restoreD := ⟨true, "", "", 0, false⟩ }

/-- C1 witness: the amended theorem instantiated at concrete environments
for each of the four workflows. -/
theorem claim_C1_witness :
    ((checkoutExecute envC1a).stashCreateAttempted =
        (envC1a.status.hasUncommittedChanges || envC1a.status.hasStagedChanges) ∧
      ((envC1a.status.hasUncommittedChanges || envC1a.status.hasStagedChanges) = false →
        (checkoutExecute envC1a).restoreAttempted = false)) ∧
    ((updateExecute envC1b).stashAttempted = envC1b.status.hasChanges ∧
      (envC1b.status.hasChanges = false → (updateExecute envC1b).restoreEntered = false)) ∧
    ((updateAllExecute envC1c).stashAttempted = envC1c.status.hasChanges ∧
      (envC1c.status.hasChanges = false → (updateAllExecute envC1c).restoreEntered = false)) ∧
    ((mergeFromExecute envC1d).stashAttempted = envC1d.status.hasChanges ∧
      (envC1d.status.hasChanges = false → (mergeFromExecute envC1d).restoreEntered = false)) :=
  ⟨claim_C1_amended.1 envC1a "dev" [] "dev" rfl rfl (by decide) (by decide) rfl,
   claim_C1_amended.2.1 envC1b "origin/feat" rfl (by decide) rfl rfl,
   claim_C1_amended.2.2.1 envC1c rfl (by decide),
   claim_C1_amended.2.2.2 envC1d "src" [] "src" rfl rfl (by decide) (by decide) rfl⟩

/-! ## Claim C2 -/

/-- The verification condition actually implemented by checkout.ts: listing
succeeded, the non-blank entry count strictly increased, and the newest
entry parses as a `stash@\x7bN\x7d` reference. -/
theorem checkoutStashRef_isSome_iff (e : CheckoutEnv) :
    (checkoutStashRef e).isSome = true ↔
      (e.stashListAfter.success = true ∧
        checkoutStashCountBefore e < countNonEmptyLines e.stashListAfter.stdout ∧
        ∃ l, (nonEmptyLines e.stashListAfter.stdout).head? = some l ∧
          (stashRefMatch l).isSome = true) := by
  unfold checkoutStashRef countNonEmptyLines
  cases hs : e.stashListAfter.success
  · simp
  · by_cases hlt :
      checkoutStashCountBefore e < (nonEmptyLines e.stashListAfter.stdout).length
    · cases hh : (nonEmptyLines e.stashListAfter.stdout).head?
      · simp [hlt, hh]
      · simp [hlt, hh]
    · simp [hlt]

/-- An environment in which the stash list (vacuously empty before) holds
two entries after the stash push, neither containing the generated message:
checkout still proceeds to the mutation. -/
def envC2cx : CheckoutEnv :=
  { args := ["dev"]
    isGitRepo := true
    currentBranch := "main"
    selectedBranch := some "dev"
    status := ⟨true, false, false⟩
    now := 0
    stashListBefore := ⟨true, "", "", 0, false⟩
    stashPushWithUntracked := true
    stashPushPlain := true
    stashListAfter :=
      ⟨true, "stash@\x7b0\x7d: On main: wip\nstash@\x7b1\x7d: On other: old", "", 0, false⟩
    fetchSuccess := true
    checkoutSuccess := true
    hasRemoteBranch := false
    ffMergeSuccess := true
    statusBeforeRestore := ⟨false, false, false⟩
    restoreResult := ⟨true, "", "", 0, false⟩ }

/-- C2 counterexample: after the guard creates a save-point, the stash list
has grown by *two* entries and no entry contains the chosen message, yet
the checkout proceeds with the guarded mutation — refuting both the
"increased by exactly one" and the "newest entry's text contains the chosen
message" verification conditions of the claim. -/
theorem claim_C2_counterexample :
    (checkoutExecute envC2cx).stashCreateAttempted = true ∧
    (checkoutExecute envC2cx).checkoutAttempted = true ∧
    countNonEmptyLines envC2cx.stashListAfter.stdout = checkoutStashCountBefore envC2cx + 2 ∧
    (nonEmptyLines envC2cx.stashListAfter.stdout).all
      (fun l => !strIncludes l
        (generateStashMessage envC2cx.currentBranch "dev" envC2cx.now)) = true := by decide

/-- C2 (amended): only the checkout workflow verifies save-point creation,
and more weakly than claimed — after `createStash` succeeds the stash list
is re-listed and the checkout proceeds exactly when the listing succeeded,
the entry count *strictly increased* (by at least one, not necessarily
exactly one) and the newest entry parses as a stash reference; the entry's
text is never compared with the chosen message.  When this check fails the
checkout is refused (exit 1) with no mutation attempted.  The single-branch
update workflow performs no re-listing at all: once `stashChanges` reports
success the mutation proceeds. -/
theorem claim_C2_amended :
    (∀ (e : CheckoutEnv) (target : String) (rest : List String) (sel : String),
      e.args = target :: rest → e.isGitRepo = true → e.currentBranch ≠ "" →
      e.currentBranch ≠ target → e.selectedBranch = some sel →
      (e.status.hasUncommittedChanges || e.status.hasStagedChanges) = true →
      createStash e.stashPushWithUntracked e.stashPushPlain = true →
      (((checkoutExecute e).checkoutAttempted = true ↔
          (e.stashListAfter.success = true ∧
            checkoutStashCountBefore e < countNonEmptyLines e.stashListAfter.stdout ∧
            ∃ l, (nonEmptyLines e.stashListAfter.stdout).head? = some l ∧
              (stashRefMatch l).isSome = true)) ∧
        ((checkoutExecute e).checkoutAttempted = false →
          (checkoutExecute e).outcome = .exited 1))) ∧
    (∀ (e : UpdateEnv) (u : String),
      e.isGitRepo = true → e.currentBranch ≠ "" → e.hasRemote = true →
      e.upstreamBranch = some u → e.status.hasChanges = true →
      e.stashResult.success = true → e.fetchResult.success = true →
      getBehindCount e.revListResult ≠ 0 →
      (updateExecute e).updateAttempted = true) := by
  constructor
  · intro e target rest sel hargs h1 h2 h3 h4 hg hcs
    rw [checkoutExecute_reduce e target rest sel hargs h1 h2 h3 h4]
    rw [← checkoutStashRef_isSome_iff]
    cases href : checkoutStashRef e
    · simp [hg, hcs, href]
    · have hf := checkoutAfterGuard_fields e sel true (checkoutStashRef e)
      simp_all [hf.2.1]
  · intro e u h1 h2 h3 h4 hc hs hf hb
    rw [updateExecute_eq_afterGuard e h1 h2 h3 u h4 (fun _ => hs), hc]
    unfold updateAfterGuard
    simp only [hf, Bool.not_true, if_neg, if_pos]
    repeat' split
    all_goals simp_all

/-- An update environment one commit behind its upstream. -/
def envC2w : UpdateEnv :=
  { envC1b with
    status := ⟨true, false, false⟩
    revListResult := ⟨true, "1", "", 0, false⟩
    stashListLate := ⟨true, "stash@\x7b0\x7d: gitnoob-update-T", "", 0, false⟩ }

/-- C2 witness: the amended theorem instantiated at concrete environments —
the counterexample environment for the checkout conjunct (its verification
condition holds, so the checkout proceeds) and an environment one commit
behind upstream for the update conjunct. -/
theorem claim_C2_witness :
    (((checkoutExecute envC2cx).checkoutAttempted = true ↔
        (envC2cx.stashListAfter.success = true ∧
          checkoutStashCountBefore envC2cx < countNonEmptyLines envC2cx.stashListAfter.stdout ∧
          ∃ l, (nonEmptyLines envC2cx.stashListAfter.stdout).head? = some l ∧
            (stashRefMatch l).isSome = true)) ∧
      ((checkoutExecute envC2cx).checkoutAttempted = false →
        (checkoutExecute envC2cx).outcome = .exited 1)) ∧
    (updateExecute envC2w).updateAttempted = true :=
  ⟨claim_C2_amended.1 envC2cx "dev" [] "dev" rfl rfl (by decide) (by decide) rfl
      (by decide) (by decide),
   claim_C2_amended.2 envC2w "origin/feat" rfl (by decide) rfl rfl rfl rfl rfl
      (by decide)⟩

/-! ## Claim C3 -/

/-- An update environment in which a stash was created and the rebase then
fails with a non-conflict error. -/
def envC3cx : UpdateEnv :=
  { args := []
    isGitRepo := true
    currentBranch := "feat"
    hasRemote := true
    upstreamBranch := some "origin/feat"
    status := ⟨true, false, false⟩
    nowString := "T"
    stashResult := ⟨true, "", "", 0, false⟩
    fetchResult := ⟨true, "", "", 0, false⟩
    revListResult := ⟨true, "3", "", 0, false⟩
    updateResult := ⟨false, "", "fatal: unable to rebase", 128, false⟩
    stashListEarly := ⟨true, "", "", 0, false⟩
    restoreEarly := ⟨true, "", "", 0, false⟩
    stashListLate := ⟨true, "stash@\x7b0\x7d: gitnoob-update-T", "", 0, false⟩
    restoreLate := ⟨true, "", "", 0, false⟩ }

/-- C3 counterexample: in the single-branch update workflow a save-point is
created, the rebase fails with a *non-conflict* error, and the command
exits 1 without ever attempting a restore — refuting the claim that every
guarded workflow attempts a restore before reporting a mutation failure. -/
theorem claim_C3_counterexample :
    (updateExecute envC3cx).stashCreated = true ∧
    envC3cx.updateResult.success = false ∧
    updateIsConflict envC3cx.updateResult = false ∧
    (updateExecute envC3cx).outcome = .exited 1 ∧
    (updateExecute envC3cx).restoreEntered = false := by decide

/-- C3 (amended): in the checkout workflow, when a save-point was created
and the checkout itself fails, a restore *is* attempted before the failure
is reported (exit 1); but in the single-branch update workflow a
non-conflict failure of the rebase/merge exits 1 without attempting any
restore of the created save-point. -/
theorem claim_C3_amended :
    (∀ (e : CheckoutEnv) (target : String) (rest : List String) (sel : String),
      e.args = target :: rest → e.isGitRepo = true → e.currentBranch ≠ "" →
      e.currentBranch ≠ target → e.selectedBranch = some sel →
      (e.status.hasUncommittedChanges || e.status.hasStagedChanges) = true →
      createStash e.stashPushWithUntracked e.stashPushPlain = true →
      (checkoutStashRef e).isSome = true →
      e.checkoutSuccess = false →
      ((checkoutExecute e).outcome = .exited 1 ∧
        (checkoutExecute e).restoreAttempted = true)) ∧
    (∀ (e : UpdateEnv) (u : String),
      e.isGitRepo = true → e.currentBranch ≠ "" → e.hasRemote = true →
      e.upstreamBranch = some u → e.status.hasChanges = true →
      e.stashResult.success = true → e.fetchResult.success = true →
      getBehindCount e.revListResult ≠ 0 → e.updateResult.success = false →
      updateIsConflict e.updateResult = false →
      ((updateExecute e).outcome = .exited 1 ∧
        (updateExecute e).restoreEntered = false)) := by
  constructor
  · intro e target rest sel hargs h1 h2 h3 h4 hg hcs href hco
    rw [checkoutExecute_reduce e target rest sel hargs h1 h2 h3 h4]
    cases hr : checkoutStashRef e with
    | none => rw [hr] at href; simp at href
    | some r =>
      have hf := checkoutAfterGuard_fields e sel true (some r)
      have ho := checkoutAfterGuard_outcome_of_failed e sel true (some r) hco
      simp [hg, hcs, hr, ho, hf.2.2]
  · intro e u h1 h2 h3 h4 hc hs hf hb hu hnc
    rw [updateExecute_eq_afterGuard e h1 h2 h3 u h4 (fun _ => hs), hc]
    unfold updateAfterGuard
    simp [hf, hb, hu, hnc]

/-- A checkout environment in which the guard stashes and the checkout
fails. -/
def envC3w : CheckoutEnv :=
  { envC1a with checkoutSuccess := false }

/-- C3 witness: the amended theorem instantiated at a failing checkout with
a verified stash and at the non-conflict update failure environment. -/
theorem claim_C3_witness :
    ((checkoutExecute envC3w).outcome = .exited 1 ∧
      (checkoutExecute envC3w).restoreAttempted = true) ∧
    ((updateExecute envC3cx).outcome = .exited 1 ∧
      (updateExecute envC3cx).restoreEntered = false) :=
  ⟨claim_C3_amended.1 envC3w "dev" [] "dev" rfl rfl (by decide) (by decide) rfl
      (by decide) (by decide) (by decide) rfl,
   claim_C3_amended.2 envC3cx "origin/feat" rfl (by decide) rfl rfl rfl rfl rfl
      (by decide) rfl (by decide)⟩

/-! ## Claim C4 -/

/-- C4: in the single-branch update and merge-from workflows, when the
rebase/merge step fails and its error text matches a conflict marker, the
run returns (rather than exits) a structured result with `success = false`,
exit code 1 and `requiresManualResolution = true`, and the previously
created save-point is not restored. -/
theorem claim_C4 :
    (∀ (e : UpdateEnv) (u : String),
      e.isGitRepo = true → e.currentBranch ≠ "" → e.hasRemote = true →
      e.upstreamBranch = some u → e.status.hasChanges = true →
      e.stashResult.success = true → e.fetchResult.success = true →
      getBehindCount e.revListResult ≠ 0 → e.updateResult.success = false →
      updateIsConflict e.updateResult = true →
      ((updateExecute e).outcome =
          .returned ⟨false, "", "Merge conflicts detected", 1, true⟩ ∧
        (updateExecute e).stashCreated = true ∧
        (updateExecute e).restoreEntered = false)) ∧
    (∀ (e : MergeFromEnv) (source : String) (rest : List String) (sel : String),
      e.args = source :: rest → e.isGitRepo = true → e.currentBranch ≠ "" →
      e.currentBranch ≠ source → e.selectedBranch = some sel →
      e.status.hasChanges = true → e.stashResult.success = true →
      mergeFromStep3Fail e = false → e.checkoutSourceSuccess = true →
      mergeFromStep4Fail e = false → e.checkoutBackSuccess = true →
      e.mergeResult.success = false → isConflictText e.mergeResult = true →
      ((mergeFromExecute e).outcome =
          .returned ⟨false, "", "Merge conflicts detected", 1, true⟩ ∧
        (mergeFromExecute e).stashCreated = true ∧
        (mergeFromExecute e).restoreEntered = false)) := by
  constructor
  · intro e u h1 h2 h3 h4 hc hs hf hb hu hcf
    rw [updateExecute_eq_afterGuard e h1 h2 h3 u h4 (fun _ => hs), hc]
    unfold updateAfterGuard
    simp [hf, hb, hu, hcf]
  · intro e source rest sel hargs h1 h2 h3 h4 hc hs h5 h6 h7 h8 h9 h10
    rw [mergeFromExecute_eq_afterGuard e source rest sel hargs h1 h2 h3 h4 (fun _ => hs), hc]
    unfold mergeFromAfterGuard
    simp [h5, h6, h7, h8, h9, h10]

/-- An update environment whose rebase fails with a conflict marker. -/
def envC4a : UpdateEnv :=
  { envC3cx with
    updateResult := ⟨false, "", "CONFLICT (content): merge conflict in a.txt", 1, false⟩ }

/-- A merge-from environment whose final merge fails with a conflict
marker after a stash was created. -/
def envC4b : MergeFromEnv :=
  { envC1d with
    status := ⟨true, false, false⟩
    mergeResult := ⟨false, "", "CONFLICT (content): merge conflict in b.txt", 1, false⟩ }

/-- C4 witness: the theorem instantiated at conflicting update and
merge-from environments. -/
theorem claim_C4_witness :
    ((updateExecute envC4a).outcome =
        .returned ⟨false, "", "Merge conflicts detected", 1, true⟩ ∧
      (updateExecute envC4a).stashCreated = true ∧
      (updateExecute envC4a).restoreEntered = false) ∧
    ((mergeFromExecute envC4b).outcome =
        .returned ⟨false, "", "Merge conflicts detected", 1, true⟩ ∧
      (mergeFromExecute envC4b).stashCreated = true ∧
      (mergeFromExecute envC4b).restoreEntered = false) :=
  ⟨claim_C4.1 envC4a "origin/feat" rfl (by decide) rfl rfl rfl rfl rfl
      (by decide) rfl (by decide),
   claim_C4.2 envC4b "src" [] "src" rfl rfl (by decide) (by decide) rfl rfl rfl
      (by decide) rfl (by decide) rfl rfl (by decide)⟩

/-! ## Claim C5 -/

/-- C5: in the single-branch update workflow, when after fetching the
behind-count is zero the rebase/merge is never attempted, the command
returns success ("Branch already up to date", exit code 0), and when the
guard created a save-point the restore procedure still runs before
returning (with `restoreStash` invoked whenever the save-point is found by
its message). -/
theorem claim_C5 (e : UpdateEnv) (u : String)
    (h1 : e.isGitRepo = true) (h2 : e.currentBranch ≠ "") (h3 : e.hasRemote = true)
    (h4 : e.upstreamBranch = some u)
    (h5 : e.status.hasChanges = true → e.stashResult.success = true)
    (h6 : e.fetchResult.success = true)
    (h7 : getBehindCount e.revListResult = 0) :
    (updateExecute e).outcome = .returned ⟨true, "Branch already up to date", "", 0, false⟩ ∧
    (updateExecute e).updateAttempted = false ∧
    (e.status.hasChanges = true → (updateExecute e).restoreEntered = true) ∧
    (e.status.hasChanges = true →
      (findStash e.stashListEarly (updateStashMessage e)).isSome = true →
      (updateExecute e).restoreStashCalled = true) := by
  rw [updateExecute_eq_afterGuard e h1 h2 h3 u h4 h5]
  unfold updateAfterGuard
  cases hc : e.status.hasChanges <;> simp [h6, h7, hc]

/-- An update environment with changes, a created stash, zero behind-count
and a findable stash entry. -/
def envC5w : UpdateEnv :=
  { envC1b with
    status := ⟨true, false, false⟩
    stashListEarly := ⟨true, "stash@\x7b0\x7d: gitnoob-update-T", "", 0, false⟩ }

/-- C5 witness: the theorem instantiated at a concrete zero-behind
environment with a created and findable save-point. -/
theorem claim_C5_witness :
    (updateExecute envC5w).outcome =
      .returned ⟨true, "Branch already up to date", "", 0, false⟩ ∧
    (updateExecute envC5w).updateAttempted = false ∧
    (envC5w.status.hasChanges = true → (updateExecute envC5w).restoreEntered = true) ∧
    (envC5w.status.hasChanges = true →
      (findStash envC5w.stashListEarly (updateStashMessage envC5w)).isSome = true →
      (updateExecute envC5w).restoreStashCalled = true) :=
  claim_C5 envC5w "origin/feat" rfl (by decide) rfl rfl (fun _ => rfl) rfl (by decide)

/-! ## Claim C6 -/

/-- C6: in every classification run, a local branch whose upstream tracking
reports gone is placed in the upstream-gone category and never
simultaneously in stale-tracking (gone branches are collected first and the
stale filter excludes them). -/
theorem claim_C6 (e : PruneEnv) (b : String) (hb : b ∈ e.goneUpstreamLocals) :
    b ∈ (analyzeBranches e).goneBranches ∧ b ∉ (analyzeBranches e).staleBranches := by
  constructor
  · simpa [analyzeBranches] using hb
  · intro hmem
    simp only [analyzeBranches, staleAgainst, List.mem_map, List.mem_filter] at hmem
    obtain ⟨p, ⟨hp, hcond⟩, hfst⟩ := hmem
    rw [Bool.and_eq_true, Bool.not_eq_true'] at hcond
    have : e.goneUpstreamLocals.contains p.1 = true := by
      subst hfst
      simpa using hb
    rw [this] at hcond
    exact absurd hcond.1 (by simp)

/-- A prune environment with one gone branch that is also absent from the
live remote set (so it would otherwise qualify as stale). -/
def envC6w : PruneEnv :=
  { args := []
    isGitRepo := true
    remoteAvailablePre := true
    fetchResult := ⟨true, "", "", 0, false⟩
    localBranches := [("feat-x", "feat-x"), ("feat-y", "feat-y")]
    remoteBranches := ["main", "feat-y"]
    liveBranches := ["main", "feat-y"]
    branchesWithoutUpstream := ["scratch"]
    goneUpstreamLocals := ["feat-x"]
    remoteAvailableInAnalysis := true
    currentBranchShown := "main"
    confirm := some true
    deleteSuccessOf := fun _ => true }

/-- C6 witness: the theorem instantiated at a concrete run in which the
gone branch would also have qualified as stale. -/
theorem claim_C6_witness :
    "feat-x" ∈ (analyzeBranches envC6w).goneBranches ∧
    "feat-x" ∉ (analyzeBranches envC6w).staleBranches :=
  claim_C6 envC6w "feat-x" (by decide)

/-! ## Claim C7 -/

/-- C7: a local branch with no configured upstream is classified orphaned
exactly when it is neither the current branch nor a protected trunk name,
and the deletion set contains the orphaned category exactly when the
opt-in flag is passed (without it the set is stale ++ gone only). -/
theorem claim_C7 :
    (∀ (e : PruneEnv) (b : String), b ∈ e.branchesWithoutUpstream →
      (b ∈ (analyzeBranches e).orphanedBranches ↔
        (b ≠ e.currentBranchShown ∧ b ∉ mainBranches))) ∧
    (∀ a : PruneAnalysis, branchesToDelete a false = a.staleBranches ++ a.goneBranches) ∧
    (∀ (a : PruneAnalysis) (b : String), b ∈ a.orphanedBranches →
      b ∈ branchesToDelete a true) := by
  refine ⟨?_, ?_, ?_⟩
  · intro e b hb
    simp [analyzeBranches, List.mem_filter, hb]
  · intro a
    simp [branchesToDelete]
  · intro a b hb
    simp [branchesToDelete, hb]

/-- C7 witness: the theorem instantiated at the concrete environment
`envC6w`, whose branch `scratch` has no upstream. -/
theorem claim_C7_witness :
    ("scratch" ∈ (analyzeBranches envC6w).orphanedBranches ↔
      ("scratch" ≠ envC6w.currentBranchShown ∧ "scratch" ∉ mainBranches)) ∧
    branchesToDelete (analyzeBranches envC6w) false =
      (analyzeBranches envC6w).staleBranches ++ (analyzeBranches envC6w).goneBranches ∧
    "scratch" ∈ branchesToDelete (analyzeBranches envC6w) true :=
  ⟨claim_C7.1 envC6w "scratch" (by decide),
   claim_C7.2.1 (analyzeBranches envC6w),
   claim_C7.2.2 (analyzeBranches envC6w) "scratch" (by decide)⟩

/-! ## Claim C8 -/

/-- C8: when the live-remote query returns an empty set while the remote is
reachable, the run is degraded (`noConnection = true`) and the stale
classification is computed against the cached remote-tracking set; the
outdated-remote-cache category is empty in every degraded run (it is
computed only when not degraded), and every branch in the deletion set
comes from the stale, gone, or (opt-in) orphaned categories — never from
outdated-remote-cache. -/
theorem claim_C8 :
    (∀ e : PruneEnv, e.liveBranches = [] → e.remoteAvailableInAnalysis = true →
      ((analyzeBranches e).noConnection = true ∧
        (analyzeBranches e).staleBranches = staleAgainst e e.remoteBranches ∧
        (analyzeBranches e).outdatedRemotes = [])) ∧
    (∀ e : PruneEnv, (analyzeBranches e).noConnection = false →
      (analyzeBranches e).outdatedRemotes =
        e.remoteBranches.filter (fun b => !(e.liveBranches.contains b) && b != "HEAD")) ∧
    (∀ (a : PruneAnalysis) (flag : Bool) (b : String), b ∈ branchesToDelete a flag →
      b ∈ a.staleBranches ∨ b ∈ a.goneBranches ∨ (flag = true ∧ b ∈ a.orphanedBranches)) := by
  refine ⟨?_, ?_, ?_⟩
  · intro e hl hr
    refine ⟨by simp [analyzeBranches, hl, hr], by simp [analyzeBranches, hl, hr], ?_⟩
    simp [analyzeBranches, hl, hr]
  · intro e hnc
    simp only [analyzeBranches] at hnc ⊢
    rcases hla : e.liveBranches.isEmpty <;>
      rcases hra : e.remoteAvailableInAnalysis <;>
        simp_all
  · intro a flag b hb
    rcases flag <;> simp_all [branchesToDelete]

/-- A degraded prune environment: the live query is empty but the remote is
reachable, and the cached set still misses one tracked upstream. -/
def envC8w : PruneEnv :=
  { envC6w with
    liveBranches := []
    localBranches := [("feat-x", "feat-x"), ("feat-y", "feat-y"), ("feat-z", "feat-z")]
    remoteBranches := ["main", "feat-y"] }

/-- C8 witness: the theorem instantiated at a concrete degraded run and at
its deletion set. -/
theorem claim_C8_witness :
    ((analyzeBranches envC8w).noConnection = true ∧
      (analyzeBranches envC8w).staleBranches = staleAgainst envC8w envC8w.remoteBranches ∧
      (analyzeBranches envC8w).outdatedRemotes = []) ∧
    ((analyzeBranches envC6w).noConnection = false →
      (analyzeBranches envC6w).outdatedRemotes =
        envC6w.remoteBranches.filter
          (fun b => !(envC6w.liveBranches.contains b) && b != "HEAD")) ∧
    ("feat-z" ∈ branchesToDelete (analyzeBranches envC8w) false →
      "feat-z" ∈ (analyzeBranches envC8w).staleBranches ∨
      "feat-z" ∈ (analyzeBranches envC8w).goneBranches ∨
      (false = true ∧ "feat-z" ∈ (analyzeBranches envC8w).orphanedBranches)) :=
  ⟨claim_C8.1 envC8w rfl rfl,
   fun h => claim_C8.2.1 envC6w h,
   fun h => claim_C8.2.2 (analyzeBranches envC8w) false "feat-z" h⟩

/-! ## Claim C9 -/

/-- The prune environment `envC6w` with the confirmation declined. -/
def envC9cx : PruneEnv :=
  { envC6w with confirm := some false }

/-- C9 counterexample: explicitly declining prune's confirmation prompt
yields a non-success result with exit code 1 ("Pruning cancelled"),
refuting the claim that declining a confirmation yields exit code 0 for
every command. -/
theorem claim_C9_counterexample :
    envC9cx.confirm = some false ∧
    (pruneExecute envC9cx).outcome =
      .returned ⟨false, "", "Pruning cancelled", 1, false⟩ := by
  exact ⟨rfl, by decide⟩

/-- C9 (amended): the reset command treats a declined confirmation as a
clean no-op and returns success with exit code 0, but the prune command
returns a non-success result with exit code 1 when its confirmation is
declined. -/
theorem claim_C9_amended :
    (∀ e : ResetEnv, e.isGitRepo = true → e.currentBranch ≠ "" →
      (protectedBranches.contains e.currentBranch = false ∨
        e.args.contains "--force" = true) →
      e.confirm1 = some false →
      resetExecute e = .returned ⟨true, "Reset cancelled", "", 0, false⟩) ∧
    (∀ e : PruneEnv, e.isGitRepo = true → e.remoteAvailablePre = true →
      e.fetchResult.success = true →
      (!(analyzeBranches e).staleBranches.isEmpty ||
        !(analyzeBranches e).goneBranches.isEmpty ||
        !(analyzeBranches e).orphanedBranches.isEmpty) = true →
      (branchesToDelete (analyzeBranches e)
        (e.args.contains "--include-orphaned")).isEmpty = false →
      e.confirm = some false →
      (pruneExecute e).outcome =
        .returned ⟨false, "", "Pruning cancelled", 1, false⟩) := by
  constructor
  · intro e h1 h2 h3 h4
    unfold resetExecute
    simp [h1, h2, h4]
    intro hmem
    rcases h3 with h3 | h3
    · simp at h3
      exact absurd hmem h3
    · simpa using h3
  · intro e h1 h2 h3 hAny hNe h4
    unfold pruneExecute
    simp [h1, h2, h3, hAny, hNe, h4]
    split
    · rename_i hcon
      simp_all
    · rfl

/-- A reset environment on an unprotected branch with the confirmation
declined. -/
def envC9ra : ResetEnv :=
  { args := []
    isGitRepo := true
    currentBranch := "feat"
    confirm1 := some false
    confirm2 := none
    resetHardResult := ⟨true, "", "", 0, false⟩
    cleanResult := ⟨true, "", "", 0, false⟩
    upstreamBranch := none
    upstreamResetResult := ⟨true, "", "", 0, false⟩
    finalStatus := ⟨false, false, false⟩ }

/-- C9 witness: the amended theorem instantiated at a declined reset and a
declined prune. -/
theorem claim_C9_witness :
    resetExecute envC9ra = .returned ⟨true, "Reset cancelled", "", 0, false⟩ ∧
    (pruneExecute envC9cx).outcome = .returned ⟨false, "", "Pruning cancelled", 1, false⟩ :=
  ⟨claim_C9_amended.1 envC9ra rfl (by decide) (Or.inl (by decide)) rfl,
   claim_C9_amended.2 envC9cx rfl rfl rfl (by decide) (by decide) rfl⟩

/-! ## Claim C10 -/

/-- Sign analysis of `jsParseInt`: when the input does not begin with a
minus sign, any parsed value is non-negative. -/
theorem jsParseInt_nonneg (s : String) (h : ¬ s.data.head? = some '-') (n : Int)
    (hn : jsParseInt s = some n) : 0 ≤ n := by
  unfold jsParseInt at hn
  simp only [h, if_false, false_or] at hn
  split at hn <;>
    (split at hn
     · exact absurd hn (by simp)
     · rw [Option.some_inj] at hn
       omega)

/-- C10: `getBehindCount` is total and never signals an error — it returns
0 whenever the rev-list invocation failed or its output does not parse as a
number, and a non-negative value whenever the (trimmed) output does not
begin with a minus sign; consequently, in the update workflow a failed
rev-list query is indistinguishable from being up to date: the command
reports "already up to date" and never attempts the rebase/merge. -/
theorem claim_C10 :
    (∀ r : GitResult, r.success = false → getBehindCount r = 0) ∧
    (∀ r : GitResult, jsParseInt (jsTrim r.stdout) = none → getBehindCount r = 0) ∧
    (∀ r : GitResult, ¬ (jsTrim r.stdout).data.head? = some '-' →
      0 ≤ getBehindCount r) ∧
    (∀ (e : UpdateEnv) (u : String),
      e.isGitRepo = true → e.currentBranch ≠ "" → e.hasRemote = true →
      e.upstreamBranch = some u →
      (e.status.hasChanges = true → e.stashResult.success = true) →
      e.fetchResult.success = true → e.revListResult.success = false →
      ((updateExecute e).updateAttempted = false ∧
        (updateExecute e).outcome =
          .returned ⟨true, "Branch already up to date", "", 0, false⟩)) := by
  refine ⟨?_, ?_, ?_, ?_⟩
  · intro r h
    simp [getBehindCount, h]
  · intro r h
    simp [getBehindCount, h]
  · intro r h
    unfold getBehindCount
    split
    · cases hp : jsParseInt (jsTrim r.stdout) with
      | none => simp
      | some n =>
        simpa using jsParseInt_nonneg (jsTrim r.stdout) h n hp
    · simp
  · intro e u h1 h2 h3 h4 h5 h6 h7
    have hb : getBehindCount e.revListResult = 0 := by simp [getBehindCount, h7]
    rw [updateExecute_eq_afterGuard e h1 h2 h3 u h4 h5]
    unfold updateAfterGuard
    cases hc : e.status.hasChanges <;> simp [h6, hb, hc]

/-- An update environment whose rev-list query fails outright. -/
def envC10w : UpdateEnv :=
  { envC1b with
    revListResult := ⟨false, "", "fatal: unknown revision", 128, false⟩ }

/-- C10 witness: the theorem instantiated at a failed rev-list result, an
unparsable output, a digit output and the failed-query update run. -/
theorem claim_C10_witness :
    getBehindCount ⟨false, "", "fatal: unknown revision", 128, false⟩ = 0 ∧
    getBehindCount ⟨true, "zzz", "", 0, false⟩ = 0 ∧
    0 ≤ getBehindCount ⟨true, "7", "", 0, false⟩ ∧
    ((updateExecute envC10w).updateAttempted = false ∧
      (updateExecute envC10w).outcome =
        .returned ⟨true, "Branch already up to date", "", 0, false⟩) :=
  ⟨claim_C10.1 _ rfl,
   claim_C10.2.1 ⟨true, "zzz", "", 0, false⟩ (by decide),
   claim_C10.2.2.1 ⟨true, "7", "", 0, false⟩ (by decide),
   claim_C10.2.2.2 envC10w "origin/feat" rfl (by decide) rfl rfl (fun _ => rfl) rfl rfl⟩
